import Mathlib

/-!
Verification of the EMS attendance subsystem (geofencing, attendance
session transitions, office-timing classification, summary aggregation).

The definitions below are a shallow embedding of the Python source:
  - Backend/app/utils/geolocation.py        (LocationService)
  - Backend/app/routes/attendance_routes.py (check-in/check-out routes,
                                             get_attendance_summary)
  - Backend/app/crud/attendance_crud.py     (check_in, check_out, the late
                                             classification conditions)
Timestamps are modelled as rational numbers of hours, Python floats as
rationals, and JSON dict payloads as structures with Option fields.
-/

/-! ## Rounding

Python's builtin round uses banker's rounding (round half to even);
round(x, 2) is modelled by roundHalfEven on x * 100.
-/

/-- Round a rational to the nearest integer, ties to even (Python round). -/
def roundHalfEven (q : ℚ) : ℤ :=
  let f : ℤ := ⌊q⌋
  let frac : ℚ := q - (f : ℚ)
  if frac < 1/2 then f
  else if 1/2 < frac then f + 1
  else if f % 2 = 0 then f else f + 1

/-- Python round(x, 2): round to 2 decimal places, ties to even. -/
def round2 (x : ℚ) : ℚ := ((roundHalfEven (x * 100) : ℤ) : ℚ) / 100

/-! ## GeoFence evaluator (Backend/app/utils/geolocation.py)

geopy's geodesic distance is not a rational-arithmetic function, so the
distance from a point to the configured center is passed in as an explicit
function argument distToCenter; the rest of the evaluator (polygon ray
casting, radius comparison, payload truthiness checks) is embedded exactly.
-/

/-- PVG_COLLEGE_COORDS = (18.46719, 73.86622). -/
def PVG_COLLEGE_COORDS : ℚ × ℚ := (1846719/100000, 7386622/100000)

/-- ALLOWED_RADIUS_METERS = 350. -/
def ALLOWED_RADIUS_METERS : ℚ := 350

/-- PVG_BOUNDARY: the campus bounding polygon, (lat, lon) pairs. -/
def PVG_BOUNDARY : List (ℚ × ℚ) :=
  [(1847022/100000, 7386231/100000),
   (1847102/100000, 7386582/100000),
   (1846966/100000, 7386874/100000),
   (1846688/100000, 7387119/100000),
   (1846401/100000, 7387157/100000),
   (1846218/100000, 7386849/100000),
   (1846261/100000, 7386423/100000)]

/-- One iteration of the ray-casting loop in LocationService.point_in_boundary:
x, y are the query point (lon, lat); the edge runs from (lat_i, lon_i) to
(lat_j, lon_j).  Mirrors
  intersects = ((yi > y) != (yj > y)) and
               (x < (xj - xi) * (y - yi) / ((yj - yi) or 1e-9) + xi). -/
def ray_cast_step (x y : ℚ) (inside : Bool) (edge : (ℚ × ℚ) × (ℚ × ℚ)) : Bool :=
  let yi := edge.1.1
  let xi := edge.1.2
  let yj := edge.2.1
  let xj := edge.2.2
  let d : ℚ := yj - yi
  let dd : ℚ := if d = 0 then 1/1000000000 else d
  let intersects := (decide (yi > y) != decide (yj > y)) &&
    decide (x < (xj - xi) * (y - yi) / dd + xi)
  if intersects then !inside else inside

/-- The edge list (B[i], B[(i+1) % n]) traversed by the ray-casting loop. -/
def polygon_edges (l : List (ℚ × ℚ)) : List ((ℚ × ℚ) × (ℚ × ℚ)) :=
  match l with
  | [] => []
  | x :: xs => l.zip (xs ++ [x])

/-- LocationService._point_in_boundary: ray casting over the closed polygon;
edge i runs from PVG_BOUNDARY[i] to PVG_BOUNDARY[(i+1) % n]. -/
def point_in_boundary (lat lon : ℚ) : Bool :=
  (polygon_edges PVG_BOUNDARY).foldl (ray_cast_step lon lat) false

/-- LocationService.is_within_allowed_location: inside the allowed radius of
the center, else fall back to the boundary polygon.  distToCenter lat lon is
the geodesic distance in meters from (lat, lon) to PVG_COLLEGE_COORDS. -/
def is_within_allowed_location (distToCenter : ℚ → ℚ → ℚ) (lat lon : ℚ) : Bool :=
  if distToCenter lat lon ≤ ALLOWED_RADIUS_METERS then true
  else point_in_boundary lat lon

/-- The location_data dict consumed by LocationService.validate_location:
location_data.get(k) is none when the key is absent. -/
structure LocationPayload where
  latitude : Option ℚ
  longitude : Option ℚ
  accuracy : Option ℚ
deriving DecidableEq, Repr

/-- Python truthiness of an optional number: None and 0 are falsy. -/
def truthy (o : Option ℚ) : Bool :=
  match o with
  | none => false
  | some x => decide (x ≠ 0)

/-- LocationService.validate_location: the completeness check
`not all([lat, lon])` (Python truthiness), then the radius/polygon check,
with the >150m GPS-drift tolerance applied only to out-of-area coordinates. -/
def validate_location (distToCenter : ℚ → ℚ → ℚ) (p : LocationPayload) :
    Bool × String :=
  if !(truthy p.latitude && truthy p.longitude) then
    (false, "Location data is incomplete")
  else if !(is_within_allowed_location distToCenter (p.latitude.getD 0) (p.longitude.getD 0)) then
    if truthy p.accuracy && decide ((150 : ℚ) < p.accuracy.getD 0) then
      (true, "Location accepted with high GPS drift")
    else
      (false, "You must be within the PVG College premises to check in")
  else
    (true, "Location verified")

/-! ## Reverse geocoding and location details
(LocationService.get_address_from_coords / get_location_details)

The external Nominatim lookup is modelled by its outcome: geo is some info
when the geocoder returned a location, and none when it failed with a
handled error or returned nothing.  The TTL cache lookup is modelled by its
outcome cache (some cached value on a fresh hit, none on a miss). -/

/-- Result of a successful reverse-geocode: the address and the raw
display_name used for place_name extraction. -/
structure AddressInfo where
  address : String
  display_name : String
deriving DecidableEq, Repr

/-- The details dict built by LocationService.get_location_details and stored
as an attendance record's location_data; accuracy and timestamp are left
None by get_location_details (timestamp is filled in at check-out). -/
structure LocationDetails where
  latitude : ℚ
  longitude : ℚ
  address : String
  place_name : String
  accuracy : Option ℚ
  timestamp : Option ℚ
  is_valid : Bool
deriving DecidableEq, Repr

/-- LocationService.get_location_details: on a cache hit return the cached
details; otherwise build the details, substituting "Address not available"
and "Location" when the reverse-geocode failed (geo = none). -/
def get_location_details (distToCenter : ℚ → ℚ → ℚ) (geo : Option AddressInfo)
    (cache : Option LocationDetails) (lat lon : ℚ) : LocationDetails :=
  match cache with
  | some cached => cached
  | none =>
    { latitude := lat
      longitude := lon
      address := match geo with
        | some a => a.address
        | none => "Address not available"
      place_name := match geo with
        | some a => (a.display_name.splitOn ",").headD ""
        | none => "Location"
      accuracy := none
      timestamp := none
      is_valid := is_within_allowed_location distToCenter lat lon }

/-- attendance_routes.validate_and_process_location: reject when the payload
lacks the latitude/longitude keys (400), reject when validate_location says
the location is invalid (403), otherwise return get_location_details. -/
def validate_and_process_location (distToCenter : ℚ → ℚ → ℚ)
    (geo : Option AddressInfo) (cache : Option LocationDetails)
    (p : LocationPayload) : Except (ℕ × String) LocationDetails :=
  if !(p.latitude.isSome && p.longitude.isSome) then
    .error (400, "Latitude and longitude are required in location data")
  else
    let v := validate_location distToCenter p
    if v.1 then
      .ok (get_location_details distToCenter geo cache (p.latitude.getD 0) (p.longitude.getD 0))
    else
      .error (403, v.2)

/-! ## Attendance session state (attendance_routes.py check-in/check-out)

One employee's attendance rows for the current day.  The route handlers are
embedded from the point after user validation, location validation and
selfie saving: processed_location is the result of
validate_and_process_location and selfie_path the saved file path. -/

/-- The gps_location dict stored by the routes:
\x7b'latitude': ..., 'longitude': ...\x7d. -/
structure Gps where
  latitude : ℚ
  longitude : ℚ
deriving DecidableEq, Repr

/-- The location_data JSON column: the check-in's processed_location dict at
top level (base), plus the nested check_out sub-dict added at check-out. -/
structure LocData where
  base : Option LocationDetails
  check_out : Option LocationDetails
deriving DecidableEq, Repr

/-- One row of the attendance table (fields used by the attendance core). -/
structure AttendanceRow where
  attendance_id : ℕ
  check_in : ℚ
  check_out : Option ℚ
  gps_location : Option Gps
  location_data : LocData
  selfie : Option String
  total_hours : ℚ
deriving DecidableEq, Repr

/-- The day's rows for one employee, in insertion (primary key) order, plus
the next attendance_id the database would assign. -/
structure DayState where
  recs : List AttendanceRow
  nextId : ℕ
deriving DecidableEq, Repr

/-- Query of the check-in route: filter(check_out IS NULL).first() —
the first open row in insertion order. -/
def find_open (recs : List AttendanceRow) : Option AttendanceRow :=
  recs.find? (fun r => r.check_out.isNone)

/-- Query of the check-out route:
filter(check_out IS NULL).order_by(check_in.desc()).first() — the open row
with the greatest check_in. -/
def latest_open (recs : List AttendanceRow) : Option AttendanceRow :=
  (recs.filter (fun r => r.check_out.isNone)).foldl
    (fun acc r =>
      match acc with
      | none => some r
      | some b => if b.check_in < r.check_in then some r else some b)
    none

/-- attendance_routes.employee_check_in_route (after validation): if an open
row exists today, return it unchanged; otherwise insert a new row with
check_in = now, the processed location as evidence and total_hours = 0.
Returns the new state and the row serialized in the response. -/
def employee_check_in_route (now : ℚ) (processed_location : LocationDetails)
    (selfie_path : Option String) (s : DayState) : DayState × AttendanceRow :=
  match find_open s.recs with
  | some existing => (s, existing)
  | none =>
    let att : AttendanceRow :=
      { attendance_id := s.nextId
        check_in := now
        check_out := none
        gps_location := some { latitude := processed_location.latitude,
                               longitude := processed_location.longitude }
        location_data := { base := some processed_location, check_out := none }
        selfie := selfie_path
        total_hours := 0 }
    ({ recs := s.recs ++ [att], nextId := s.nextId + 1 }, att)

/-- attendance_routes.employee_check_out_route (after validation): require an
open row for today (else 400 "No active check-in found for today"); close it
with check_out = now, selfie_path or existing selfie, gps_location replaced
by the check-out coordinates, processed_location merged under
location_data['check_out'] with its timestamp set, and
total_hours = round((check_out - check_in) hours, 2). -/
def employee_check_out_route (now : ℚ) (processed_location : LocationDetails)
    (selfie_path : Option String) (s : DayState) :
    Except (ℕ × String) (DayState × AttendanceRow) :=
  match latest_open s.recs with
  | none => .error (400, "No active check-in found for today")
  | some att =>
    let att' : AttendanceRow :=
      { att with
        check_out := some now
        selfie := match selfie_path with
          | some p => some p
          | none => att.selfie
        gps_location := some { latitude := processed_location.latitude,
                               longitude := processed_location.longitude }
        location_data := { base := att.location_data.base,
                           check_out := some { processed_location with timestamp := some now } }
        total_hours := round2 (now - att.check_in) }
    let recs' := s.recs.map
      (fun x => if x.attendance_id = att.attendance_id then att' else x)
    .ok ({ s with recs := recs' }, att')

/-- A check-in or check-out request hitting the route handlers, carrying its
already-processed evidence. -/
inductive AttEvent where
  | ci (now : ℚ) (pl : LocationDetails) (selfie_path : Option String)
  | co (now : ℚ) (pl : LocationDetails) (selfie_path : Option String)
deriving DecidableEq, Repr

/-- Apply one request to the day's state; a failed check-out raises before
any mutation is committed, so the state is unchanged. -/
def step (s : DayState) : AttEvent → DayState
  | .ci now pl sp => (employee_check_in_route now pl sp s).1
  | .co now pl sp =>
    match employee_check_out_route now pl sp s with
    | .ok (s', _) => s'
    | .error _ => s

/-- Run a sequence of requests for one employee from an empty day. -/
def run_day (evs : List AttEvent) : DayState :=
  evs.foldl step { recs := [], nextId := 1 }

/-! ## CRUD layer (Backend/app/crud/attendance_crud.py)

attendance_crud.check_in / check_out operate on the same table; here
gps_location is the raw string parameter of those functions.  The optional
string parameters follow Python's or-defaulting (a provided value replaces
the stored one). -/

/-- One attendance row as seen by the CRUD helpers (gps_location : str). -/
structure CrudRow where
  attendance_id : ℕ
  check_in : ℚ
  check_out : Option ℚ
  gps_location : Option String
  selfie : Option String
  total_hours : ℚ
deriving DecidableEq, Repr

/-- Query of crud.check_in: filter(check_out IS NULL).order_by(
check_in.desc()).first() over today's rows. -/
def crud_latest_open (recs : List CrudRow) : Option CrudRow :=
  (recs.filter (fun r => r.check_out.isNone)).foldl
    (fun acc r =>
      match acc with
      | none => some r
      | some b => if b.check_in < r.check_in then some r else some b)
    none

/-- attendance_crud.check_in: if an open row exists today, update it in
place — check_in := now, gps_location := gps_location or existing,
selfie := selfie or existing; otherwise insert a new row with
total_hours = 0.  Returns the updated row list, next id, and the row. -/
def check_in (now : ℚ) (gps_location selfie : Option String)
    (recs : List CrudRow) (nextId : ℕ) : List CrudRow × ℕ × CrudRow :=
  match crud_latest_open recs with
  | some att =>
    let att' : CrudRow :=
      { att with
        check_in := now
        gps_location := match gps_location with
          | some g => some g
          | none => att.gps_location
        selfie := match selfie with
          | some sf => some sf
          | none => att.selfie }
    let recs' := recs.map
      (fun x => if x.attendance_id = att.attendance_id then att' else x)
    (recs', nextId, att')
  | none =>
    let att : CrudRow :=
      { attendance_id := nextId
        check_in := now
        check_out := none
        gps_location := gps_location
        selfie := selfie
        total_hours := 0 }
    (recs ++ [att], nextId + 1, att)

/-- attendance_crud.check_out: take the first of today's rows for the user
(no open-session filter, no ordering — insertion order first()); if none,
return none; else add now - check_out (re-closing) or now - check_in (first
closeout) to total_hours, unrounded, and set check_out = now. -/
def check_out (now : ℚ) (gps_location selfie : Option String)
    (recs : List CrudRow) : Option (List CrudRow × CrudRow) :=
  match recs.head? with
  | none => none
  | some att =>
    let delta : ℚ := match att.check_out with
      | some prev => now - prev
      | none => now - att.check_in
    let att' : CrudRow :=
      { att with
        check_out := some now
        total_hours := att.total_hours + delta
        gps_location := match gps_location with
          | some g => some g
          | none => att.gps_location
        selfie := match selfie with
          | some sf => some sf
          | none => att.selfie }
    let recs' := recs.map
      (fun x => if x.attendance_id = att.attendance_id then att' else x)
    some (recs', att')

/-! ## Late-arrival classification (attendance_crud.py)

Both reporting queries hard-code a 09:30 threshold; neither consults an
office-timing policy or a grace period. -/

/-- Late condition of attendance_crud.get_today_attendance_records line 165:
check_in_time.hour >= 9 and (check_in_time.hour > 9 or
check_in_time.minute > 30). -/
def late_status_today (hour minute : ℕ) : Bool :=
  decide (9 ≤ hour) && (decide (9 < hour) || decide (30 < minute))

/-- Late filter of attendance_crud.get_attendance_summary lines 201-206:
extract(hour) * 60 + extract(minute) > 9 * 60 + 30. -/
def late_filter_summary (hour minute : ℕ) : Bool :=
  decide (9 * 60 + 30 < hour * 60 + minute)

/-! ## Summary aggregator (attendance_routes.get_attendance_summary)

Today's rows joined with active users; timestamps are hours since midnight
of the current day (the query only returns rows with check_in between
today's bounds), so .time() comparisons and duration differences use the
same rational value. -/

/-- One row of the summary query: (user_id, name, check_in, check_out)
projected to the fields the aggregation reads. -/
structure SummaryRow where
  user_id : ℕ
  check_in : ℚ
  check_out : Option ℚ
deriving DecidableEq, Repr

/-- The summary dict returned by attendance_routes.get_attendance_summary
(the date field is omitted). -/
structure AttendanceSummary where
  total_employees : ℕ
  present_today : ℕ
  absent_today : ℕ
  late_arrivals : ℕ
  early_departures : ℕ
  average_work_hours : ℚ
deriving DecidableEq, Repr

/-- work_start = 10:00 in attendance_routes.get_attendance_summary. -/
def work_start : ℚ := 10

/-- work_end = 18:00 in attendance_routes.get_attendance_summary. -/
def work_end : ℚ := 18

/-- The work_durations list: check_out - check_in for closed rows, now -
check_in for rows that only checked in (every queried row has check_in). -/
def work_durations (now : ℚ) (records : List SummaryRow) : List ℚ :=
  records.map (fun r =>
    match r.check_out with
    | some t => t - r.check_in
    | none => now - r.check_in)

/-- attendance_routes.get_attendance_summary: all-zero summary when there
are no active employees; otherwise distinct present users, late/early
counts against the 10:00/18:00 bounds, absent = max 0 (total - present),
and average work hours = round(sum/len, 2) when the durations list is
non-empty, else 0.0. -/
def get_attendance_summary (total_employees : ℕ) (now : ℚ)
    (records : List SummaryRow) : AttendanceSummary :=
  if total_employees = 0 then
    { total_employees := 0, present_today := 0, absent_today := 0,
      late_arrivals := 0, early_departures := 0, average_work_hours := 0 }
  else
    let present := (records.map (fun r => r.user_id)).dedup.length
    let late := records.countP (fun r => decide (work_start < r.check_in))
    let early := records.countP (fun r =>
      match r.check_out with
      | some t => decide (t < work_end)
      | none => false)
    let durations := work_durations now records
    let avg : ℚ :=
      if durations.isEmpty then 0
      else round2 (durations.sum / (durations.length : ℚ))
    { total_employees := total_employees
      present_today := present
      absent_today := total_employees - present
      late_arrivals := late
      early_departures := early
      average_work_hours := avg }

/-! ## Concrete inputs used by witnesses and counterexamples -/

/-- A processed check-in location used as generic evidence in scenarios. -/
def pl0 : LocationDetails :=
  { latitude := 185/10, longitude := 739/10, address := "A", place_name := "P",
    accuracy := none, timestamp := none, is_valid := true }

/-- Two full check-in/check-out cycles on the same day:
in at 0h, out at 1h, in again at 2h, out again at 3h. -/
def c1_events : List AttEvent :=
  [.ci 0 pl0 none, .co 1 pl0 none, .ci 2 pl0 none, .co 3 pl0 none]

/-- The row produced by one cycle (in at 0h, out at 1h) from an empty day. -/
def c1_row : AttendanceRow :=
  { attendance_id := 1, check_in := 0, check_out := some 1,
    gps_location := some { latitude := 185/10, longitude := 739/10 },
    location_data := { base := some pl0,
                       check_out := some { pl0 with timestamp := some 1 } },
    selfie := none, total_hours := 1 }

/-! ## Theorems -/

/-- Helper: one route request preserves the per-row single-cycle accounting
of total_hours (each closed row's total_hours is the rounded length of its
own check_in-to-check_out interval). -/
theorem step_preserves_cycle_hours (s : DayState) (e : AttEvent)
    (h : ∀ r ∈ s.recs, ∀ t, r.check_out = some t →
      r.total_hours = round2 (t - r.check_in)) :
    ∀ r ∈ (step s e).recs, ∀ t, r.check_out = some t →
      r.total_hours = round2 (t - r.check_in) := by
  cases e with
  | ci now pl sp =>
    simp only [step, employee_check_in_route]
    cases hfo : find_open s.recs with
    | some existing => simpa using h
    | none =>
      intro r hr t ht
      rcases List.mem_append.1 hr with hr | hr
      · exact h r hr t ht
      · simp only [List.mem_singleton] at hr
        subst hr
        simp at ht
  | co now pl sp =>
    simp only [step]
    cases hlo : latest_open s.recs with
    | none => simp only [employee_check_out_route, hlo]; exact h
    | some att =>
      simp only [employee_check_out_route, hlo]
      intro r hr t ht
      rcases List.mem_map.1 hr with ⟨x, hx, hxr⟩
      by_cases hid : x.attendance_id = att.attendance_id
      · subst hxr
        simp only [hid, if_pos] at ht ⊢
        simp only [Option.some.injEq] at ht
        subst ht
        rfl
      · subst hxr
        simp only [hid, if_neg, ite_false] at ht ⊢
        exact h x hx t ht

/-- C1 (amended): the check-out route handler does not accumulate closed-cycle
durations.  A same-day re-check-in inserts a fresh row (the open-session query
excludes closed rows) and the check-out overwrites total_hours with
round(check_out - check_in, 2) of that row alone, so after any sequence of
check-in/check-out requests every closed row's total_hours equals the rounded
duration of its own single cycle — not the sum of the day's cycles. -/
theorem c1_total_hours_single_cycle :
    ∀ (evs : List AttEvent) (r : AttendanceRow), r ∈ (run_day evs).recs →
      ∀ t, r.check_out = some t → r.total_hours = round2 (t - r.check_in) := by
  have main : ∀ (evs : List AttEvent) (s : DayState),
      (∀ r ∈ s.recs, ∀ t, r.check_out = some t →
        r.total_hours = round2 (t - r.check_in)) →
      ∀ r ∈ (evs.foldl step s).recs, ∀ t, r.check_out = some t →
        r.total_hours = round2 (t - r.check_in) := by
    intro evs
    induction evs with
    | nil => intro s hs; simpa using hs
    | cons e evs ih =>
      intro s hs
      exact ih (step s e) (step_preserves_cycle_hours s e hs)
  intro evs r hr t ht
  exact main evs { recs := [], nextId := 1 } (by simp) r hr t ht

/-- C1 witness: after one cycle (in at 0h, out at 1h) the closed row's
total_hours is round2 of its own duration. -/
theorem c1_witness : c1_row.total_hours = round2 (1 - c1_row.check_in) :=
  c1_total_hours_single_cycle [.ci 0 pl0 none, .co 1 pl0 none] c1_row
    (by norm_num [run_day, step, employee_check_in_route, employee_check_out_route,
          find_open, latest_open, pl0, c1_row, round2, roundHalfEven,
          List.find?, List.filter])
    1 rfl

/-- C1 counterexample: after check_in(0h), check_out(1h), check_in(2h),
check_out(3h) the claim predicts a day record with total_hours =
round2((1-0)+(3-2)) = 2; instead the day holds two rows whose total_hours
are [1, 1], and no record carries the accumulated sum 2. -/
theorem c1_counterexample :
    ((run_day c1_events).recs.map (fun r => r.total_hours) = [1, 1]) ∧
    round2 ((1 - 0) + ((3 : ℚ) - 2)) = 2 ∧
    ¬ ∃ r ∈ (run_day c1_events).recs, r.total_hours = 2 := by
  refine ⟨?_, ?_, ?_⟩ <;>
    norm_num [run_day, c1_events, step, employee_check_in_route,
      employee_check_out_route, find_open, latest_open, pl0, round2,
      roundHalfEven, List.find?, List.filter]

/-- An open CRUD row: checked in at 9h with stored evidence, still open. -/
def c2_open_row : CrudRow :=
  { attendance_id := 1, check_in := 9, check_out := none,
    gps_location := some "gps0", selfie := some "selfie0", total_hours := 0 }

/-- An open route-layer session at 5h with no evidence, used to witness the
idempotence of the check-in route. -/
def c2_open_att : AttendanceRow :=
  { attendance_id := 1, check_in := 5, check_out := none,
    gps_location := none, location_data := { base := none, check_out := none },
    selfie := none, total_hours := 0 }

/-- Day state holding exactly the open session c2_open_att. -/
def c2_open_state : DayState := { recs := [c2_open_att], nextId := 2 }

/-- C2 (amended): the live check-in HTTP route is idempotent while a session
is open — when an open row exists, the handler returns it as-is without
touching the state, so the attendance_id, the check_in timestamp and the
stored evidence are all unchanged.  (The unused CRUD helper check_in is not:
see the counterexample.) -/
theorem c2_route_check_in_idempotent :
    ∀ (now : ℚ) (pl : LocationDetails) (sp : Option String) (s : DayState)
      (r : AttendanceRow),
      find_open s.recs = some r →
      employee_check_in_route now pl sp s = (s, r) := by
  intro now pl sp s r h
  simp only [employee_check_in_route, h]

/-- C2 witness: a second check-in at 6h against the open 5h session returns
the open row and leaves the state untouched. -/
theorem c2_witness :
    employee_check_in_route 6 pl0 none c2_open_state = (c2_open_state, c2_open_att) :=
  c2_route_check_in_idempotent 6 pl0 none c2_open_state c2_open_att
    (by simp [find_open, c2_open_state, c2_open_att])

/-- C2 counterexample: attendance_crud.check_in on an employee with an open
row (checked in at 9h) called again at 10h refreshes check_in to 10h and
overwrites both evidence fields with the newly supplied values — the claim
says the check_in timestamp and evidence are left unchanged. -/
theorem c2_counterexample :
    check_in 10 (some "gps1") (some "selfie1") [c2_open_row] 2 =
      ([{ attendance_id := 1, check_in := 10, check_out := none,
          gps_location := some "gps1", selfie := some "selfie1",
          total_hours := 0 }], 2,
        { attendance_id := 1, check_in := 10, check_out := none,
          gps_location := some "gps1", selfie := some "selfie1",
          total_hours := 0 }) ∧
    (9 : ℚ) ≠ 10 ∧ some "gps0" ≠ some "gps1" ∧ some "selfie0" ≠ some "selfie1" := by
  refine ⟨?_, by norm_num, by simp, by simp⟩
  simp [check_in, crud_latest_open, c2_open_row, List.filter]

/-- C3 (amended): both reporting queries classify a check-in as late exactly
when its time-of-day is strictly after 09:30 — the hard-coded office start
with no grace period.  09:30 itself is on-time and 09:31 is late, and the
two cited conditions agree on every valid clock time. -/
theorem c3_late_iff_strictly_after_nine_thirty :
    ∀ (hour minute : ℕ), minute < 60 →
      late_status_today hour minute = late_filter_summary hour minute ∧
      (late_status_today hour minute = true ↔ 9 * 60 + 30 < hour * 60 + minute) := by
  intro h m hm
  have h1 : late_status_today h m = true ↔ 9 * 60 + 30 < h * 60 + m := by
    simp only [late_status_today, Bool.and_eq_true, Bool.or_eq_true,
      decide_eq_true_eq]
    omega
  have h2 : late_filter_summary h m = true ↔ 9 * 60 + 30 < h * 60 + m := by
    simp only [late_filter_summary, decide_eq_true_eq]
  exact ⟨Bool.eq_iff_iff.2 (h1.trans h2.symm), h1⟩

/-- C3 witness: 09:31 is classified late by both queries, in line with the
strict 09:30 threshold. -/
theorem c3_witness :
    late_status_today 9 31 = late_filter_summary 9 31 ∧
    (late_status_today 9 31 = true ↔ 9 * 60 + 30 < 9 * 60 + 31) :=
  c3_late_iff_strictly_after_nine_thirty 9 31 (by decide)

/-- C3 counterexample: the claim places the late threshold at start_time +
grace = 09:45 (strictly after is late, 09:45 itself on-time); the code
classifies 09:45 as late, because it compares against 09:30 with no grace
period. -/
theorem c3_counterexample :
    ¬ (late_status_today 9 45 = decide (9 * 60 + 30 + 15 < 9 * 60 + 45)) := by
  decide

/-- Distance stub for a point far from campus (the geodesic distance from
(0, 100) or (19, 74) to the PVG center is millions of meters). -/
def dist_far : ℚ → ℚ → ℚ := fun _ _ => 3400000

/-- The payload of the C4 counterexample: latitude 0 (a far-away but
numerically valid coordinate), accuracy 200m > 150m. -/
def c4_payload : LocationPayload :=
  { latitude := some 0, longitude := some 100, accuracy := some 200 }

/-- An out-of-area payload with nonzero coordinates and accuracy 200m. -/
def c4_drift_payload : LocationPayload :=
  { latitude := some 19, longitude := some 74, accuracy := some 200 }

/-- C4 (amended): for every coordinate with nonzero latitude and longitude
lying outside both the radius and the boundary polygon, validate_location
accepts with the GPS-drift message exactly when the reported accuracy is
greater than 150m, and otherwise rejects with the outside-allowed-area
message.  (Coordinates with latitude or longitude equal to 0 instead hit the
truthiness completeness check; see the counterexample.) -/
theorem c4_outside_accept_iff_drift :
    ∀ (dist : ℚ → ℚ → ℚ) (p : LocationPayload) (lat lon : ℚ),
      p.latitude = some lat → p.longitude = some lon → lat ≠ 0 → lon ≠ 0 →
      is_within_allowed_location dist lat lon = false →
      validate_location dist p =
        (match p.accuracy with
         | some a =>
           if 150 < a then (true, "Location accepted with high GPS drift")
           else (false, "You must be within the PVG College premises to check in")
         | none => (false, "You must be within the PVG College premises to check in")) := by
  intro dist p lat lon hlat hlon hlat0 hlon0 hout
  cases hacc : p.accuracy with
  | none =>
    simp [validate_location, truthy, hlat, hlon, hlat0, hlon0, hout, hacc]
  | some a =>
    by_cases ha : (150 : ℚ) < a
    · have ha0 : a ≠ 0 := by
        intro h0
        rw [h0] at ha
        norm_num at ha
      simp [validate_location, truthy, hlat, hlon, hlat0, hlon0, hout, hacc, ha, ha0]
    · simp [validate_location, truthy, hlat, hlon, hlat0, hlon0, hout, hacc, ha]

/-- C4 witness: the out-of-area point (19, 74) with reported accuracy 200m is
accepted with the GPS-drift message. -/
theorem c4_witness :
    validate_location dist_far c4_drift_payload =
      (true, "Location accepted with high GPS drift") := by
  have h := c4_outside_accept_iff_drift dist_far c4_drift_payload 19 74 rfl rfl
    (by norm_num) (by norm_num)
    (by norm_num [is_within_allowed_location, dist_far, ALLOWED_RADIUS_METERS,
          point_in_boundary, polygon_edges, PVG_BOUNDARY, ray_cast_step])
  rw [h]
  norm_num [c4_drift_payload]

/-- C4 counterexample: (0, 100) lies outside both the radius and the polygon
and reports accuracy 200m > 150m, so the claim says validate_location accepts
with the GPS-drift message; instead the truthiness test not all([lat, lon])
treats latitude 0 as missing and the payload is rejected as incomplete. -/
theorem c4_counterexample :
    is_within_allowed_location dist_far 0 100 = false ∧
    ((150 : ℚ) < 200) ∧
    validate_location dist_far c4_payload = (false, "Location data is incomplete") := by
  refine ⟨?_, by norm_num, ?_⟩ <;>
    norm_num [is_within_allowed_location, dist_far, ALLOWED_RADIUS_METERS,
      point_in_boundary, polygon_edges, PVG_BOUNDARY, ray_cast_step,
      validate_location, truthy, c4_payload]

/-- Check-in evidence of the C5 scenario: coordinates (1, 2). -/
def pl_ci : LocationDetails :=
  { latitude := 1, longitude := 2, address := "checkin addr",
    place_name := "checkin place", accuracy := none, timestamp := none,
    is_valid := true }

/-- Check-out evidence of the C5 scenario: coordinates (3, 4). -/
def pl_co : LocationDetails :=
  { latitude := 3, longitude := 4, address := "checkout addr",
    place_name := "checkout place", accuracy := none, timestamp := none,
    is_valid := true }

/-- Open session of the C5 scenario: checked in at 0h with gps (1, 2) and
selfie ci.jpg. -/
def c5_open_row : AttendanceRow :=
  { attendance_id := 1, check_in := 0, check_out := none,
    gps_location := some { latitude := 1, longitude := 2 },
    location_data := { base := some pl_ci, check_out := none },
    selfie := some "ci.jpg", total_hours := 0 }

/-- Day state holding exactly the open session c5_open_row. -/
def c5_state : DayState := { recs := [c5_open_row], nextId := 2 }

/-- C5 (amended): the check-out route merges the check-out evidence under
location_data['check_out'] and preserves the check-in's location_data and
check_in timestamp, but it overwrites the top-level gps_location with the
check-out coordinates unconditionally and replaces the selfie whenever a
check-out selfie is supplied (keeping the old one only when none is). -/
theorem c5_check_out_evidence_merge :
    ∀ (now : ℚ) (pl : LocationDetails) (sp : Option String) (s : DayState)
      (att : AttendanceRow),
      latest_open s.recs = some att →
      match employee_check_out_route now pl sp s with
      | .ok (_, att') =>
        att'.location_data.base = att.location_data.base ∧
        att'.location_data.check_out = some { pl with timestamp := some now } ∧
        att'.check_in = att.check_in ∧
        att'.check_out = some now ∧
        att'.gps_location = some { latitude := pl.latitude, longitude := pl.longitude } ∧
        att'.selfie = (match sp with | some p => some p | none => att.selfie)
      | .error _ => False := by
  intro now pl sp s att h
  simp [employee_check_out_route, h]

/-- C5 witness: checking out the (1, 2)-session at 5h with evidence (3, 4)
and selfie co.jpg produces a row whose location_data keeps the check-in
details and gains the check-out sub-structure. -/
theorem c5_witness :
    match employee_check_out_route 5 pl_co (some "co.jpg") c5_state with
    | .ok (_, att') =>
      att'.location_data.base = c5_open_row.location_data.base ∧
      att'.location_data.check_out = some { pl_co with timestamp := some 5 } ∧
      att'.check_in = c5_open_row.check_in ∧
      att'.check_out = some 5 ∧
      att'.gps_location = some { latitude := pl_co.latitude, longitude := pl_co.longitude } ∧
      att'.selfie = (match some "co.jpg" with | some p => some p | none => c5_open_row.selfie)
    | .error _ => False :=
  c5_check_out_evidence_merge 5 pl_co (some "co.jpg") c5_state c5_open_row
    (by simp [latest_open, c5_state, c5_open_row, List.filter])

/-- C5 counterexample: the claim says the check-in's stored gps_location and
selfie are preserved by a check-out; checking out the (1, 2)/ci.jpg session
with evidence (3, 4)/co.jpg leaves the row with gps_location (3, 4) and
selfie co.jpg — both replaced, not augmented. -/
theorem c5_counterexample :
    ((employee_check_out_route 5 pl_co (some "co.jpg") c5_state).toOption.map
        (fun x => (x.2.gps_location, x.2.selfie)) =
      some (some { latitude := 3, longitude := 4 }, some "co.jpg")) ∧
    c5_open_row.gps_location = some { latitude := 1, longitude := 2 } ∧
    c5_open_row.selfie = some "ci.jpg" ∧
    some ({ latitude := 3, longitude := 4 } : Gps) ≠ some ({ latitude := 1, longitude := 2 } : Gps) ∧
    some "co.jpg" ≠ some "ci.jpg" := by
  refine ⟨?_, rfl, rfl, by norm_num, by simp⟩
  norm_num [employee_check_out_route, latest_open, c5_state, c5_open_row,
    pl_co, List.filter, Except.toOption]

/-- A day whose only session is already closed (in at 1h, out at 2h). -/
def c6_closed_state : DayState :=
  { recs := [{ attendance_id := 1, check_in := 1, check_out := some 2,
               gps_location := none,
               location_data := { base := none, check_out := none },
               selfie := none, total_hours := 1 }],
    nextId := 2 }

/-- C6: a check-out with no open session today (every row already closed, or
no row at all) fails with the 400 conflict error "No active check-in found
for today", and the state is unchanged — no row is created or modified. -/
theorem c6_check_out_requires_open_session :
    ∀ (now : ℚ) (pl : LocationDetails) (sp : Option String) (s : DayState),
      (∀ r ∈ s.recs, r.check_out.isSome) →
      employee_check_out_route now pl sp s =
        .error (400, "No active check-in found for today") ∧
      step s (.co now pl sp) = s := by
  intro now pl sp s h
  have hfil : s.recs.filter (fun r => r.check_out.isNone) = [] := by
    apply List.filter_eq_nil_iff.2
    intro a ha
    rcases Option.isSome_iff_exists.1 (h a ha) with ⟨t, ht⟩
    simp [ht]
  have hlo : latest_open s.recs = none := by
    simp [latest_open, hfil]
  constructor
  · simp only [employee_check_out_route, hlo]
  · simp only [step, employee_check_out_route, hlo]

/-- C6 witness: checking out at 3h against a day whose only session is
closed yields the conflict error and leaves the day unchanged. -/
theorem c6_witness :
    employee_check_out_route 3 pl0 none c6_closed_state =
      .error (400, "No active check-in found for today") ∧
    step c6_closed_state (.co 3 pl0 none) = c6_closed_state :=
  c6_check_out_requires_open_session 3 pl0 none c6_closed_state
    (by simp [c6_closed_state])

/-- Distance stub for a point near the campus center. -/
def dist_near : ℚ → ℚ → ℚ := fun _ _ => 100

/-- Payload at the configured center itself. -/
def c7_center_payload : LocationPayload :=
  { latitude := some (1846719/100000), longitude := some (7386622/100000),
    accuracy := none }

/-- C7: a coordinate whose distance to the configured center is strictly
below the 350m radius is accepted with "Location verified".  The nonzero
hypotheses on latitude and longitude are facts of every such real
coordinate: any point within 350m of the PVG center has latitude near 18.47
and longitude near 73.87. -/
theorem c7_within_radius_verified :
    ∀ (dist : ℚ → ℚ → ℚ) (p : LocationPayload) (lat lon : ℚ),
      p.latitude = some lat → p.longitude = some lon → lat ≠ 0 → lon ≠ 0 →
      dist lat lon < ALLOWED_RADIUS_METERS →
      validate_location dist p = (true, "Location verified") := by
  intro dist p lat lon hlat hlon hlat0 hlon0 hd
  have hw : is_within_allowed_location dist lat lon = true := by
    simp [is_within_allowed_location, le_of_lt hd]
  simp [validate_location, truthy, hlat, hlon, hlat0, hlon0, hw]

/-- C7 witness: the center itself at distance 100m < 350m is accepted with
"Location verified". -/
theorem c7_witness :
    validate_location dist_near c7_center_payload = (true, "Location verified") :=
  c7_within_radius_verified dist_near c7_center_payload
    (1846719/100000) (7386622/100000) rfl rfl
    (by norm_num) (by norm_num) (by norm_num [dist_near, ALLOWED_RADIUS_METERS])

/-- Payload with latitude exactly 0 and high reported accuracy. -/
def c8_payload : LocationPayload :=
  { latitude := some 0, longitude := some 7, accuracy := some 1000 }

/-- C8: a payload whose latitude or longitude equals 0 is rejected as
incomplete regardless of the reported accuracy — Python's not all([lat, lon])
treats the number 0 as missing, so the >150m drift tolerance is never
reached. -/
theorem c8_zero_coordinate_rejected_incomplete :
    ∀ (dist : ℚ → ℚ → ℚ) (p : LocationPayload),
      p.latitude = some 0 ∨ p.longitude = some 0 →
      validate_location dist p = (false, "Location data is incomplete") := by
  intro dist p h
  rcases h with h | h <;> simp [validate_location, truthy, h]

/-- C8 witness: latitude 0 with accuracy 1000m is rejected as incomplete. -/
theorem c8_witness :
    validate_location dist_far c8_payload = (false, "Location data is incomplete") :=
  c8_zero_coordinate_rejected_incomplete dist_far c8_payload (Or.inl rfl)

/-- The all-zero summary returned when no employee is active. -/
def zero_summary : AttendanceSummary :=
  { total_employees := 0, present_today := 0, absent_today := 0,
    late_arrivals := 0, early_departures := 0, average_work_hours := 0 }

/-- A single summary row: user 7 checked in at 9h and out at 17h. -/
def c9_row : SummaryRow := { user_id := 7, check_in := 9, check_out := some 17 }

/-- C9: with zero active employees the summary short-circuits to the all-zero
result (average 0.0, nothing computed, no division); with a nonzero employee
count and a non-empty record list, every record contributes exactly one work
duration, so the average divides by the non-zero length of the durations
list. -/
theorem c9_summary_zero_safe :
    (∀ (now : ℚ) (records : List SummaryRow),
      get_attendance_summary 0 now records = zero_summary) ∧
    (∀ (total : ℕ) (now : ℚ) (records : List SummaryRow),
      total ≠ 0 → records ≠ [] →
      (work_durations now records).length = records.length ∧
      records.length ≠ 0 ∧
      (get_attendance_summary total now records).average_work_hours =
        round2 ((work_durations now records).sum /
          ((work_durations now records).length : ℚ))) := by
  constructor
  · intro now records
    simp [get_attendance_summary, zero_summary]
  · intro total now records htot hrec
    have hlen : (work_durations now records).length = records.length := by
      simp [work_durations]
    have hlen0 : records.length ≠ 0 := fun h => hrec (List.length_eq_zero.1 h)
    refine ⟨hlen, hlen0, ?_⟩
    have hne : (work_durations now records).isEmpty = false := by
      have : work_durations now records ≠ [] := by
        intro h
        exact hlen0 (by rw [← hlen, h]; rfl)
      simp [List.isEmpty_iff, this]
    simp [get_attendance_summary, htot, hne]

/-- C9 witness: with no active employees the summary is all-zero even though
a record is present, and with 3 active employees and one closed record the
average is the rounded mean over the single duration. -/
theorem c9_witness :
    get_attendance_summary 0 12 [c9_row] = zero_summary ∧
    ((work_durations 12 [c9_row]).length = [c9_row].length ∧
     [c9_row].length ≠ 0 ∧
     (get_attendance_summary 3 12 [c9_row]).average_work_hours =
       round2 ((work_durations 12 [c9_row]).sum /
         ((work_durations 12 [c9_row]).length : ℚ))) :=
  ⟨c9_summary_zero_safe.1 12 [c9_row],
   c9_summary_zero_safe.2 3 12 [c9_row] (by decide) (by simp)⟩

/-- C10: when the reverse-geocode fails or returns nothing (geo = none) and
the cache misses, a location that validates is still processed: the route
helper returns the details rather than an error, with the placeholder
address "Address not available" and place name "Location" substituted. -/
theorem c10_geocode_failure_fail_soft :
    ∀ (dist : ℚ → ℚ → ℚ) (p : LocationPayload) (lat lon : ℚ),
      p.latitude = some lat → p.longitude = some lon →
      (validate_location dist p).1 = true →
      validate_and_process_location dist none none p =
        .ok (get_location_details dist none none lat lon) ∧
      (get_location_details dist none none lat lon).address = "Address not available" ∧
      (get_location_details dist none none lat lon).place_name = "Location" := by
  intro dist p lat lon hlat hlon hv
  refine ⟨?_, rfl, rfl⟩
  simp [validate_and_process_location, hlat, hlon, hv]

/-- C10 witness: a nonzero in-radius coordinate with a failed geocode is
accepted and carries the placeholder address. -/
theorem c10_witness :
    validate_and_process_location dist_near none none
        { latitude := some 20, longitude := some 70, accuracy := none } =
      .ok (get_location_details dist_near none none 20 70) ∧
    (get_location_details dist_near none none 20 70).address = "Address not available" ∧
    (get_location_details dist_near none none 20 70).place_name = "Location" :=
  c10_geocode_failure_fail_soft dist_near
    { latitude := some 20, longitude := some 70, accuracy := none } 20 70 rfl rfl
    (by norm_num [validate_location, truthy, is_within_allowed_location,
          dist_near, ALLOWED_RADIUS_METERS])
